import Mathlib

/-!
Verification development for the JustWorkflowIt definition-deployer lambda
(`src/lambda/definitionDeployerLambda.ts`).  The lambda is embedded shallowly:
every remote call (S3 get, registry API, Secrets Manager) is answered by an
oracle passed in explicitly, and the embedding records the sequence of remote
calls performed in an event trace so that ordering and absence-of-calls
properties can be stated.
-/

namespace DefDeployer

/-- Model of a JavaScript error object as inspected by the lambda:
the fields read by `shouldRetryRegister` and by the NotFound recovery in
`deployWorkflows`, plus what the handler needs to render the error
(`error instanceof Error ? error.message : String(error)`). -/
structure JsError where
  metadataHttpStatusCode : Option Int := none
  statusCode : Option Int := none
  fault : Option String := none
  errorType : Option String := none
  message : Option String := none
  isError : Bool := false
  asString : String := ""
  deriving Repr, DecidableEq

/-- A thrown JavaScript value: either a primitive (null, undefined, a string,
a number, ...) or an object carrying the fields above.  `asString` of a
primitive is its `String(v)` rendering. -/
inductive Thrown where
  | primitive (asString : String)
  | errObj (e : JsError)
  deriving Repr, DecidableEq

/-- Embedding of `shouldRetryRegister` (definitionDeployerLambda.ts lines
35-52): a non-object is never retryable; otherwise the primary status field
`$metadata.httpStatusCode` is consulted if it is a number, else the fallback
field `statusCode` if it is a number, else the `$fault` indicator is compared
with the string "server". -/
def shouldRetryRegister : Thrown → Bool
  | .primitive _ => false
  | .errObj e =>
    match e.metadataHttpStatusCode with
    | some s => decide (s ≥ 500)
    | none =>
      match e.statusCode with
      | some s => decide (s ≥ 500)
      | none => e.fault == some "server"

deriving instance DecidableEq for Except

/-- A registered workflow version as returned by the registry. -/
structure WorkflowVersion where
  versionId : String
  deriving Repr, DecidableEq

/-- Result of `registerWorkflowVersionWithRetry`: the final outcome, the
number of attempts actually made, and the list of backoff delays slept
(in order). -/
structure RetryResult where
  result : Except Thrown WorkflowVersion
  attemptsMade : Nat
  delays : List Nat
  deriving Repr, DecidableEq

/-- The error thrown by the unreachable line after the retry loop
(`registerWorkflowVersionWithRetry exhausted attempts unexpectedly`). -/
def exhaustedError : Thrown :=
  .errObj { message := some "registerWorkflowVersionWithRetry exhausted attempts unexpectedly",
            isError := true }

/-- The body of the `for (let attempt = 1; attempt <= maxAttempts; attempt++)`
loop of `registerWorkflowVersionWithRetry` (lines 68-83), with the remaining
number of loop iterations made explicit as fuel.  `oracle n` is the outcome of
the n-th call to `api.registerWorkflowVersion`.  Running out of fuel is the
loop condition turning false, which in the source falls through to the final
`throw new Error(...)`. -/
def retryLoop (oracle : Nat → Except Thrown WorkflowVersion) (maxAttempts baseDelayMs : Nat) :
    Nat → Nat → List Nat → RetryResult
  | attempt, 0, delays => ⟨.error exhaustedError, attempt - 1, delays⟩
  | attempt, fuel + 1, delays =>
    match oracle attempt with
    | .ok v => ⟨.ok v, attempt, delays⟩
    | .error e =>
      if maxAttempts ≤ attempt ∨ shouldRetryRegister e = false then
        ⟨.error e, attempt, delays⟩
      else
        retryLoop oracle maxAttempts baseDelayMs (attempt + 1) fuel
          (delays ++ [baseDelayMs * 2 ^ (attempt - 1)])

/-- Embedding of `registerWorkflowVersionWithRetry` (lines 60-86).
`cfgMaxAttempts` and `cfgBaseDelayMs` are the environment-derived defaults
(3 and 1000 when the environment variables are unset); the function clamps
them with `Math.max(1, _)` and `Math.max(0, _)` and runs the loop from
attempt 1.  The fuel `maxAttempts` is exactly the number of iterations the
source loop can make. -/
def registerWorkflowVersionWithRetry (oracle : Nat → Except Thrown WorkflowVersion)
    (cfgMaxAttempts cfgBaseDelayMs : Nat) : RetryResult :=
  let maxAttempts := max 1 cfgMaxAttempts
  let baseDelayMs := max 0 cfgBaseDelayMs
  retryLoop oracle maxAttempts baseDelayMs 1 maxAttempts []

/-- A workflow record as returned by `api.listWorkflows` / `api.registerWorkflow`. -/
structure Workflow where
  workflowId : String
  name : String
  deriving Repr, DecidableEq

/-- The `workflowName` field of the parsed definition JSON, as JavaScript sees
it: absent (or any falsy non-string such as null, 0, false), a string value,
or a truthy value that is not a string (a number, object, array, ...). -/
inductive NameField where
  | absentOrFalsy
  | str (s : String)
  | truthyNonString
  deriving Repr, DecidableEq

/-- JavaScript truthiness of the `workflowName` field, as tested by
`if (!workflowName)` (line 102): falsy iff absent/falsy or the empty string. -/
def nameFalsy : NameField → Bool
  | .absentOrFalsy => true
  | .str s => s.isEmpty
  | .truthyNonString => false

/-- Outcome of `JSON.parse(definitionStr)` followed by the optional-chained
field read `definitionJson?.workflowName`: either the parse throws, or it
yields a value whose `workflowName` field is as recorded. -/
inductive ParseOutcome where
  | parseError (e : Thrown)
  | parsed (workflowName : NameField)
  deriving Repr, DecidableEq

/-- Whether the first list is an initial segment of the second. -/
def listStartsWith [BEq α] : List α → List α → Bool
  | [], _ => true
  | _ :: _, [] => false
  | a :: as, b :: bs => a == b && listStartsWith as bs

/-- Whether the first list occurs contiguously inside the second. -/
def listContainsSeq [BEq α] : List α → List α → Bool
  | pat, [] => pat.isEmpty
  | pat, l@(_ :: rest) => listStartsWith pat l || listContainsSeq pat rest

/-- Substring test, embedding `String.prototype.includes`. -/
def containsSubstr (s pat : String) : Bool :=
  listContainsSeq pat.toList s.toList

/-- The NotFound recovery test on an error from `api.getTaggedWorkflowVersion`
(line 145): `err?.errorType === 'NotFoundError' ||
err?.message?.includes('No version tagged') || err?.message?.includes('No version found')`.
On a primitive both optional chains yield undefined, so the test is false. -/
def isLiveNotFound : Thrown → Bool
  | .primitive _ => false
  | .errObj e =>
    e.errorType == some "NotFoundError"
      || (match e.message with
          | some m => containsSubstr m "No version tagged" || containsSubstr m "No version found"
          | none => false)

/-- The error `new Error(\x7b... — missing "workflowName"\x7d)` thrown at line 103. -/
def missingNameError (key : String) : Thrown :=
  .errObj { message := some ("File " ++ key ++ " — missing \"workflowName\""), isError := true }

/-- The TypeError raised inside the `find` callback when
`workflowName.toUpperCase()` is called on a truthy non-string value. -/
def toUpperTypeError : Thrown :=
  .errObj { message := some "workflowName.toUpperCase is not a function", isError := true }

/-- Embedding of `String.prototype.toUpperCase` (character-wise upper-casing;
the definitions and blobs in scope use ASCII names). -/
def jsToUpperCase (s : String) : String :=
  String.mk (s.data.map Char.toUpper)

/-- Embedding of the workflow lookup (lines 107-109):
`workflowResponse.workflows.find((w) => w.name.toUpperCase() === workflowName.toUpperCase())`.
When `workflowName` is a string the search is a case-insensitive name match;
when it is a truthy non-string, the first callback invocation throws a
TypeError, so the call throws exactly when the list is nonempty. -/
def findMatching (workflows : List Workflow) (wn : NameField) :
    Except Thrown (Option Workflow) :=
  match wn with
  | .str s => .ok (workflows.find? (fun w => jsToUpperCase w.name == jsToUpperCase s))
  | _ =>
    match workflows with
    | [] => .ok none
    | _ :: _ => .error toUpperTypeError

/-- One remote event performed by the lambda, in execution order.  Storage
and registry calls are distinguished from the secret fetch so that claims
about "no storage or registry call" can be stated on the trace. -/
inductive Event where
  | storageFetch (key : String)
  | listWorkflowsCall
  | registerWorkflowCall (name : NameField)
  | registerVersionAttempt (workflowId : String) (attempt : Nat)
  | getLiveCall (workflowId : String)
  | setTagCall (workflowId : String) (versionId : String)
  | secretFetch (name : String)
  deriving Repr, DecidableEq

/-- Whether an event is a storage or registry call (everything except the
Secrets Manager fetch). -/
def Event.isRemoteWork : Event → Bool
  | .secretFetch _ => false
  | _ => true

/-- Whether an event is a registry call (everything except storage fetches
and the secret fetch). -/
def Event.isRegistryCall : Event → Bool
  | .storageFetch _ => false
  | .secretFetch _ => false
  | _ => true

/-- The oracle answering the remote calls made while processing one
definition key: the S3 fetch bundled with the JSON parse outcome of the
fetched content, the registry calls, and the per-attempt outcome of
`registerWorkflowVersion`. -/
structure KeyOracle where
  fetch : Except Thrown (String × ParseOutcome)
  listWorkflows : Except Thrown (List Workflow)
  registerWorkflow : Except Thrown Workflow
  registerVersion : Nat → Except Thrown WorkflowVersion
  getLive : Except Thrown WorkflowVersion
  setTag : Except Thrown Unit

/-- The find-or-create resolution of the workflow id (lines 111-124): if a
matching workflow was found its id is used and `registerWorkflow` is not
called; otherwise `registerWorkflow` is called once and its returned id is
used.  Returns the resolved id (or the thrown error) and the registry events
performed. -/
def resolveWorkflowId (o : KeyOracle) (wn : NameField) (found : Option Workflow) :
    Except Thrown String × List Event :=
  match found with
  | some w => (.ok w.workflowId, [])
  | none =>
    match o.registerWorkflow with
    | .error e => (.error e, [Event.registerWorkflowCall wn])
    | .ok w => (.ok w.workflowId, [Event.registerWorkflowCall wn])

/-- The events recorded for the attempts of one
`registerWorkflowVersionWithRetry` call. -/
def attemptEvents (workflowId : String) (attemptsMade : Nat) : List Event :=
  (List.range attemptsMade).map (fun i => Event.registerVersionAttempt workflowId (i + 1))

/-- The promotion step (lines 136-164): read the `$LIVE` version, treating a
NotFound-classified error as null; skip `setWorkflowVersionTag` iff the live
version id equals the newly registered one, else call it once. -/
def promoteStep (o : KeyOracle) (workflowId : String) (registered : WorkflowVersion)
    (base : List Event) : Except Thrown Unit × List Event :=
  let base2 := base ++ [Event.getLiveCall workflowId]
  let tag : Except Thrown Unit × List Event :=
    (match o.setTag with
     | .error e2 => (.error e2, base2 ++ [Event.setTagCall workflowId registered.versionId])
     | .ok _ => (.ok (), base2 ++ [Event.setTagCall workflowId registered.versionId]))
  match o.getLive with
  | .ok live =>
    if live.versionId == registered.versionId then (.ok (), base2) else tag
  | .error e => if isLiveNotFound e then tag else (.error e, base2)

/-- Processing of a single definition key: the body of the `for (const key of
keys)` loop of `deployWorkflows` (lines 95-169).  Returns the outcome
(ok, or the thrown error — the `catch` at line 165 only logs and rethrows)
together with the trace of storage/registry events performed. -/
def processKey (o : KeyOracle) (key : String) (cfgMaxAttempts cfgBaseDelayMs : Nat) :
    Except Thrown Unit × List Event :=
  match o.fetch with
  | .error e => (.error e, [.storageFetch key])
  | .ok (_, .parseError e) => (.error e, [.storageFetch key])
  | .ok (_, .parsed wn) =>
    if nameFalsy wn then (.error (missingNameError key), [.storageFetch key])
    else
      match o.listWorkflows with
      | .error e => (.error e, [.storageFetch key, .listWorkflowsCall])
      | .ok workflows =>
        match findMatching workflows wn with
        | .error e => (.error e, [.storageFetch key, .listWorkflowsCall])
        | .ok found =>
          match resolveWorkflowId o wn found with
          | (.error e, ev) => (.error e, [Event.storageFetch key, Event.listWorkflowsCall] ++ ev)
          | (.ok workflowId, ev) =>
            let r := registerWorkflowVersionWithRetry o.registerVersion cfgMaxAttempts cfgBaseDelayMs
            let base := [Event.storageFetch key, Event.listWorkflowsCall] ++ ev
              ++ attemptEvents workflowId r.attemptsMade
            match r.result with
            | .error e => (.error e, base)
            | .ok registered => promoteStep o workflowId registered base

/-- Embedding of `deployWorkflows` (lines 88-170): sequential processing of
the keys in input order, aborting on the first error (each key oracle is
paired with its key). -/
def deployWorkflows (cfgMaxAttempts cfgBaseDelayMs : Nat) :
    List (String × KeyOracle) → Except Thrown Unit × List Event
  | [] => (.ok (), [])
  | (key, o) :: rest =>
    match processKey o key cfgMaxAttempts cfgBaseDelayMs with
    | (.error e, ev) => (.error e, ev)
    | (.ok _, ev) =>
      match deployWorkflows cfgMaxAttempts cfgBaseDelayMs rest with
      | (r, ev2) => (r, ev ++ ev2)

/-- The CloudFormation request type driving the handler. -/
inductive RequestType where
  | Create
  | Update
  | Delete
  deriving Repr, DecidableEq

/-- The string interpolated into the response messages for a request type. -/
def RequestType.text : RequestType → String
  | .Create => "Create"
  | .Update => "Update"
  | .Delete => "Delete"

/-- The handler response: `PhysicalResourceId` plus the `Data` fields the
lambda can emit (`Message` always; `PlaceholderTokenDetected`, and
`FailureIgnored` with `Error`, on the respective paths). -/
structure CfnResponse where
  physicalResourceId : String
  message : String
  placeholderTokenDetected : Option String := none
  failureIgnored : Option String := none
  errorText : Option String := none
  deriving Repr, DecidableEq

/-- The placeholder sentinel `PLACEHOLDER_TOKEN` (line 7). -/
def PLACEHOLDER_TOKEN : String := "REPLACE_ME_WITH_JUST_WORKFLOW_IT_AUTH_TOKEN"

/-- The fixed `PhysicalResourceId` used by every return of the handler. -/
def PHYSICAL_RESOURCE_ID : String := "JustWorkflowItIntegrationTrigger"

/-- The environment-derived configuration of the handler.  String-typed
environment variables are `Option String` (unset = none); `keys` is the
parsed `DEFINITION_KEYS_JSON` list; `ignoreFailures` is the result of
`process.env.IGNORE_FAILURES === 'true'`; the retry tuning mirrors
`DEFAULT_REGISTER_ATTEMPTS` / `DEFAULT_REGISTER_BASE_DELAY_MS`. -/
structure HandlerEnv where
  bucket : Option String
  organizationId : Option String
  authSecretName : Option String
  keys : List String
  ignoreFailures : Bool
  cfgMaxAttempts : Nat
  cfgBaseDelayMs : Nat

/-- JavaScript truthiness check `if (!v)` on an environment string:
false for unset and for the empty string. -/
def envFalsy : Option String → Bool
  | none => true
  | some s => s.isEmpty

/-- The oracle for one handler invocation: the Secrets Manager result
(`SecretString` may be undefined, hence `Option String`), and the key
oracles consumed positionally by `deployWorkflows`. -/
structure HandlerOracle where
  secret : Except Thrown (Option String)
  keyOracles : List KeyOracle

/-- Rendering of a caught error in the ignored-failures response (line 225):
`error instanceof Error ? error.message : String(error)`. -/
def errorToText : Thrown → String
  | .primitive s => s
  | .errObj e => if e.isError then e.message.getD "" else e.asString

/-- The error thrown for a missing required environment variable. -/
def missingEnvError (what : String) : Thrown :=
  .errObj { message := some ("Missing " ++ what ++ " from environment variables"),
            isError := true }

/-- The final unconditional success response of the handler (lines 236-242). -/
def ranSuccessfully (rt : RequestType) : CfnResponse :=
  { physicalResourceId := PHYSICAL_RESOURCE_ID,
    message := "Ran " ++ rt.text ++ " successfully" }

/-- Embedding of the exported `handler` (lines 172-242): environment
validation, the bootstrap placeholder gate, dispatch on the request type,
and failure containment around `deployWorkflows`.  The returned trace lists
the remote calls performed (the Secrets Manager fetch and, through
`deployWorkflows`, all storage and registry calls). -/
def handler (env : HandlerEnv) (o : HandlerOracle) (rt : RequestType) :
    Except Thrown CfnResponse × List Event :=
  if envFalsy env.bucket then (.error (missingEnvError "S3 bucket"), [])
  else if envFalsy env.organizationId then (.error (missingEnvError "organization ID"), [])
  else if envFalsy env.authSecretName then (.error (missingEnvError "auth secret name"), [])
  else
    let secretName := (env.authSecretName).getD ""
    match o.secret with
    | .error e => (.error e, [.secretFetch secretName])
    | .ok authToken =>
      if authToken == some PLACEHOLDER_TOKEN then
        (.ok { physicalResourceId := PHYSICAL_RESOURCE_ID,
               message := "Skipped " ++ rt.text ++ " - placeholder token detected",
               placeholderTokenDetected := some "true" },
         [.secretFetch secretName])
      else
        match rt with
        | .Delete => (.ok (ranSuccessfully rt), [.secretFetch secretName])
        | _ =>
          if env.keys.isEmpty then (.ok (ranSuccessfully rt), [.secretFetch secretName])
          else
            match deployWorkflows env.cfgMaxAttempts env.cfgBaseDelayMs
                (env.keys.zip o.keyOracles) with
            | (.ok _, ev) => (.ok (ranSuccessfully rt), [Event.secretFetch secretName] ++ ev)
            | (.error e, ev) =>
              if env.ignoreFailures then
                (.ok { physicalResourceId := PHYSICAL_RESOURCE_ID,
                       message := rt.text ++ " completed with ignored failures",
                       failureIgnored := some "true",
                       errorText := some (errorToText e) },
                 [Event.secretFetch secretName] ++ ev)
              else (.error e, [Event.secretFetch secretName] ++ ev)

/-! ## Theorems -/

/-- The retry classification as claim C2 states it: an error is retryable iff
it carries an HTTP-style status of at least 500, determined by checking the
primary status field first, then, only when the primary is absent, the
fallback status field, then, only when both are absent, a fault indicator
equal to "server".  Written from the claim text, to be compared with the
source-derived `shouldRetryRegister`. -/
def claimRetryClassification : Thrown → Bool
  | .primitive _ => false
  | .errObj e =>
    match e.metadataHttpStatusCode, e.statusCode with
    | some primary, _ => decide (primary ≥ 500)
    | none, some fallback => decide (fallback ≥ 500)
    | none, none => e.fault == some "server"

/-- Claim C1: with configured maxAttempts = 3, if every attempt fails with a
retryable error, exactly 3 attempts are made, the final error propagates
unchanged, and the backoff delays are baseDelay and 2 * baseDelay, with no
delay after the final attempt. -/
theorem retry_three_attempts_with_backoff (e : Nat → Thrown) (baseDelay : Nat)
    (hretry : ∀ k, shouldRetryRegister (e k) = true) :
    registerWorkflowVersionWithRetry (fun k => Except.error (e k)) 3 baseDelay =
      ⟨Except.error (e 3), 3, [baseDelay, 2 * baseDelay]⟩ := by
  simp [registerWorkflowVersionWithRetry, retryLoop, hretry, Nat.mul_comm]

/-- A server-class error (primary status 500). -/
def serverError500 : Thrown :=
  .errObj { metadataHttpStatusCode := some 500 }

/-- Witness for C1 at a concrete always-failing retryable oracle. -/
theorem retry_three_attempts_with_backoff_witness :
    registerWorkflowVersionWithRetry (fun _ => Except.error serverError500) 3 1000 =
      ⟨Except.error serverError500, 3, [1000, 2 * 1000]⟩ :=
  retry_three_attempts_with_backoff (fun _ => serverError500) 1000
    (fun _ => by show shouldRetryRegister serverError500 = true; decide)

/-- Claim C2: the code classification `shouldRetryRegister` agrees with the
claimed classification (primary status field, then fallback only when the
primary is absent, then the fault indicator equal to "server"), and a
non-retryable error on the first attempt propagates unchanged with exactly
one attempt made and no backoff delay, for every configuration. -/
theorem retry_classification_and_client_short_circuit :
    (∀ t, shouldRetryRegister t = claimRetryClassification t) ∧
    (∀ (oracle : Nat → Except Thrown WorkflowVersion) (e : Thrown)
        (cfgMaxAttempts cfgBaseDelayMs : Nat),
      oracle 1 = Except.error e → shouldRetryRegister e = false →
      registerWorkflowVersionWithRetry oracle cfgMaxAttempts cfgBaseDelayMs =
        ⟨Except.error e, 1, []⟩) := by
  constructor
  · intro t
    cases t with
    | primitive s => rfl
    | errObj e =>
      rcases e with ⟨m, s, f, et, msg, ie, as⟩
      cases m <;> cases s <;> rfl
  · intro oracle e cfgA cfgB h1 h2
    obtain ⟨f, hf⟩ : ∃ f, max 1 cfgA = f + 1 := ⟨max 1 cfgA - 1, by omega⟩
    simp only [registerWorkflowVersionWithRetry, hf, retryLoop, h1, h2]
    simp

/-- A client-class error (primary status 400). -/
def clientError400 : Thrown :=
  .errObj { metadataHttpStatusCode := some 400 }

/-- Witness for C2 at a concrete client-class error. -/
theorem retry_classification_and_client_short_circuit_witness :
    shouldRetryRegister clientError400 = claimRetryClassification clientError400 ∧
    registerWorkflowVersionWithRetry (fun _ => Except.error clientError400) 3 1000 =
      ⟨Except.error clientError400, 1, []⟩ :=
  ⟨retry_classification_and_client_short_circuit.1 clientError400,
   retry_classification_and_client_short_circuit.2 (fun _ => Except.error clientError400)
     clientError400 3 1000 rfl (by decide)⟩

/-- The concatenated event traces of a list of keys when each is processed
on its own. -/
def batchEvents (cfgMaxAttempts cfgBaseDelayMs : Nat) :
    List (String × KeyOracle) → List Event
  | [] => []
  | p :: rest =>
    (processKey p.2 p.1 cfgMaxAttempts cfgBaseDelayMs).2
      ++ batchEvents cfgMaxAttempts cfgBaseDelayMs rest

/-- Claim C3: keys are processed sequentially in input order and the batch
aborts on the first fatal error.  If every key before the failing one
succeeds, the whole-batch trace is exactly the traces of the preceding keys
(their side effects stay in place, with no rollback) followed by the failing
key's trace — so no storage fetch and no registry call happens for any key
after the failing one — and the failing key's error propagates out. -/
theorem deploy_sequential_abort_on_first_error (cfgA cfgB : Nat)
    (pre : List (String × KeyOracle)) (bad : String × KeyOracle)
    (post : List (String × KeyOracle)) (e : Thrown) (evBad : List Event)
    (hpre : ∀ p ∈ pre, (processKey p.2 p.1 cfgA cfgB).1 = Except.ok ())
    (hbad : processKey bad.2 bad.1 cfgA cfgB = (Except.error e, evBad)) :
    deployWorkflows cfgA cfgB (pre ++ bad :: post) =
      (Except.error e, batchEvents cfgA cfgB pre ++ evBad) := by
  induction pre with
  | nil =>
    obtain ⟨bk, bo⟩ := bad
    simp [deployWorkflows, batchEvents, hbad]
  | cons hd tl ih =>
    obtain ⟨k, o⟩ := hd
    have hhd : (processKey o k cfgA cfgB).1 = Except.ok () := hpre (k, o) (by simp)
    have ih2 := ih (fun p hp => hpre p (by simp [hp]))
    rcases hp : processKey o k cfgA cfgB with ⟨r, ev⟩
    rw [hp] at hhd
    simp only at hhd
    subst hhd
    simp [deployWorkflows, batchEvents, hp, ih2]

/-- A NotFound error as produced by the registry adapter for a workflow with
no live version yet. -/
def sampleNotFoundError : Thrown :=
  .errObj { errorType := some "NotFoundError",
            message := some "No version tagged for this workflow", isError := true }

/-- A storage-fetch failure. -/
def sampleFetchError : Thrown :=
  .errObj { statusCode := some 403, message := some "Access Denied", isError := true }

/-- A witness key oracle on which every step succeeds: the blob parses with
workflow name "wf", the workflow already exists (named "WF", matching up to
case), the version registers on the first attempt, there is no live version
yet, and tagging succeeds. -/
def sampleOkOracle : KeyOracle :=
  { fetch := .ok ("workflowName wf", .parsed (.str "wf")),
    listWorkflows := .ok [⟨"id1", "WF"⟩],
    registerWorkflow := .error sampleFetchError,
    registerVersion := fun _ => .ok ⟨"v1"⟩,
    getLive := .error sampleNotFoundError,
    setTag := .ok () }

/-- A witness key oracle whose storage fetch fails. -/
def sampleBadOracle : KeyOracle :=
  { sampleOkOracle with fetch := .error sampleFetchError }

/-- Witness for C3: three keys, the second fails; the first key's effects are
in the trace, the third key is never touched, the error propagates. -/
theorem deploy_sequential_abort_witness :
    deployWorkflows 3 1000
        [("k1", sampleOkOracle), ("k2", sampleBadOracle), ("k3", sampleOkOracle)] =
      (Except.error sampleFetchError,
        batchEvents 3 1000 [("k1", sampleOkOracle)] ++ [Event.storageFetch "k2"]) :=
  deploy_sequential_abort_on_first_error 3 1000 [("k1", sampleOkOracle)]
    ("k2", sampleBadOracle) [("k3", sampleOkOracle)] sampleFetchError
    [Event.storageFetch "k2"]
    (by
      intro p hp
      simp only [List.mem_singleton] at hp
      subst hp
      decide)
    (by decide)

/-- Claim C4: for every invocation and request type, when the credential
resolved from the secret store equals the placeholder sentinel, no storage
and no registry call is made (the trace holds only the secret fetch), and
the handler returns a success outcome whose data carries the skip message
and the placeholder-detected flag set to "true". -/
theorem bootstrap_gate_skips_all_remote_work (env : HandlerEnv) (o : HandlerOracle)
    (rt : RequestType)
    (hb : envFalsy env.bucket = false)
    (horg : envFalsy env.organizationId = false)
    (ha : envFalsy env.authSecretName = false)
    (hs : o.secret = Except.ok (some PLACEHOLDER_TOKEN)) :
    handler env o rt =
      (Except.ok { physicalResourceId := PHYSICAL_RESOURCE_ID,
                   message := "Skipped " ++ rt.text ++ " - placeholder token detected",
                   placeholderTokenDetected := some "true" },
       [Event.secretFetch (env.authSecretName.getD "")]) ∧
    ∀ ev ∈ (handler env o rt).2, ev.isRemoteWork = false := by
  have h : handler env o rt =
      (Except.ok { physicalResourceId := PHYSICAL_RESOURCE_ID,
                   message := "Skipped " ++ rt.text ++ " - placeholder token detected",
                   placeholderTokenDetected := some "true" },
       [Event.secretFetch (env.authSecretName.getD "")]) := by
    simp [handler, hb, horg, ha, hs]
  refine ⟨h, ?_⟩
  rw [h]
  intro ev hev
  simp only [List.mem_singleton] at hev
  subst hev
  rfl

/-- A witness handler environment with all required configuration present. -/
def sampleEnv : HandlerEnv :=
  { bucket := some "defs-bucket", organizationId := some "org-1",
    authSecretName := some "jwi-auth", keys := ["k1"], ignoreFailures := false,
    cfgMaxAttempts := 3, cfgBaseDelayMs := 1000 }

/-- Witness for C4: a concrete Update invocation whose secret resolves to the
placeholder sentinel. -/
theorem bootstrap_gate_skips_all_remote_work_witness :
    handler sampleEnv
        { secret := Except.ok (some PLACEHOLDER_TOKEN), keyOracles := [sampleOkOracle] }
        RequestType.Update =
      (Except.ok { physicalResourceId := PHYSICAL_RESOURCE_ID,
                   message := "Skipped " ++ RequestType.Update.text
                     ++ " - placeholder token detected",
                   placeholderTokenDetected := some "true" },
       [Event.secretFetch (sampleEnv.authSecretName.getD "")]) ∧
    ∀ ev ∈ (handler sampleEnv
        { secret := Except.ok (some PLACEHOLDER_TOKEN), keyOracles := [sampleOkOracle] }
        RequestType.Update).2, ev.isRemoteWork = false :=
  bootstrap_gate_skips_all_remote_work sampleEnv
    { secret := Except.ok (some PLACEHOLDER_TOKEN), keyOracles := [sampleOkOracle] }
    RequestType.Update (by decide) (by decide) (by decide) rfl

/-- Claim C10: for every Delete invocation (with the required configuration
present and the secret resolving to any value), no storage or registry call
is performed and the handler returns a success outcome. -/
theorem delete_returns_success_without_remote_calls (env : HandlerEnv) (o : HandlerOracle)
    (tok : Option String)
    (hb : envFalsy env.bucket = false)
    (horg : envFalsy env.organizationId = false)
    (ha : envFalsy env.authSecretName = false)
    (hs : o.secret = Except.ok tok) :
    (∃ r, (handler env o RequestType.Delete).1 = Except.ok r) ∧
    ∀ ev ∈ (handler env o RequestType.Delete).2, ev.isRemoteWork = false := by
  have hsplit : handler env o RequestType.Delete =
      (Except.ok { physicalResourceId := PHYSICAL_RESOURCE_ID,
                   message := "Skipped " ++ RequestType.Delete.text
                     ++ " - placeholder token detected",
                   placeholderTokenDetected := some "true" },
       [Event.secretFetch (env.authSecretName.getD "")]) ∨
      handler env o RequestType.Delete =
      (Except.ok (ranSuccessfully RequestType.Delete),
       [Event.secretFetch (env.authSecretName.getD "")]) := by
    by_cases hp : (tok == some PLACEHOLDER_TOKEN) = true
    · left
      simp [handler, hb, horg, ha, hs, hp]
    · right
      simp only [Bool.not_eq_true] at hp
      simp [handler, hb, horg, ha, hs, hp]
  rcases hsplit with h | h <;>
    (rw [h]
     refine ⟨⟨_, rfl⟩, ?_⟩
     intro ev hev
     simp only [List.mem_singleton] at hev
     subst hev
     rfl)

/-- Witness for C10: a concrete Delete invocation with a real token. -/
theorem delete_returns_success_without_remote_calls_witness :
    (∃ r, (handler sampleEnv
        { secret := Except.ok (some "real-token"), keyOracles := [sampleOkOracle] }
        RequestType.Delete).1 = Except.ok r) ∧
    ∀ ev ∈ (handler sampleEnv
        { secret := Except.ok (some "real-token"), keyOracles := [sampleOkOracle] }
        RequestType.Delete).2, ev.isRemoteWork = false :=
  delete_returns_success_without_remote_calls sampleEnv
    { secret := Except.ok (some "real-token"), keyOracles := [sampleOkOracle] }
    (some "real-token") (by decide) (by decide) (by decide) rfl

/-- Claim C5: when the reconciler invocation fails during a Create or Update
request with an error carrying message `msg`, then with `ignoreFailures` set
the handler returns a success outcome whose data carries the ignored-failure
flag and `msg`, and with the flag unset the handler rethrows the same error. -/
theorem failure_containment_on_reconcile_error (env : HandlerEnv) (o : HandlerOracle)
    (rt : RequestType) (tok : Option String) (e : Thrown) (je : JsError) (msg : String)
    (ev : List Event)
    (hb : envFalsy env.bucket = false)
    (horg : envFalsy env.organizationId = false)
    (ha : envFalsy env.authSecretName = false)
    (hs : o.secret = Except.ok tok)
    (htok : (tok == some PLACEHOLDER_TOKEN) = false)
    (hrt : rt = RequestType.Create ∨ rt = RequestType.Update)
    (hkeys : env.keys.isEmpty = false)
    (hdep : deployWorkflows env.cfgMaxAttempts env.cfgBaseDelayMs
        (env.keys.zip o.keyOracles) = (Except.error e, ev))
    (he : e = Thrown.errObj je) (hie : je.isError = true) (hm : je.message = some msg) :
    (env.ignoreFailures = true →
      handler env o rt =
        (Except.ok { physicalResourceId := PHYSICAL_RESOURCE_ID,
                     message := rt.text ++ " completed with ignored failures",
                     failureIgnored := some "true",
                     errorText := some msg },
         [Event.secretFetch (env.authSecretName.getD "")] ++ ev)) ∧
    (env.ignoreFailures = false →
      handler env o rt =
        (Except.error e, [Event.secretFetch (env.authSecretName.getD "")] ++ ev)) := by
  have hmsg : errorToText e = msg := by
    subst he
    simp [errorToText, hie, hm]
  constructor <;> intro hif <;>
    rcases hrt with h | h <;> subst h <;>
      simp [handler, hb, horg, ha, hs, htok, hkeys, hdep, hif, hmsg]

/-- The witness environment with failure containment enabled. -/
def sampleEnvIgnore : HandlerEnv :=
  { sampleEnv with ignoreFailures := true }

/-- The error object inside `sampleFetchError`. -/
def sampleFetchErrorObj : JsError :=
  { statusCode := some 403, message := some "Access Denied", isError := true }

/-- Witness for C5: a concrete Create invocation whose only key fails to
fetch, with `ignoreFailures` enabled. -/
theorem failure_containment_on_reconcile_error_witness :
    handler sampleEnvIgnore
        { secret := Except.ok (some "real-token"), keyOracles := [sampleBadOracle] }
        RequestType.Create =
      (Except.ok { physicalResourceId := PHYSICAL_RESOURCE_ID,
                   message := RequestType.Create.text ++ " completed with ignored failures",
                   failureIgnored := some "true",
                   errorText := some "Access Denied" },
       [Event.secretFetch (sampleEnvIgnore.authSecretName.getD "")]
         ++ [Event.storageFetch "k1"]) :=
  (failure_containment_on_reconcile_error sampleEnvIgnore
    { secret := Except.ok (some "real-token"), keyOracles := [sampleBadOracle] }
    RequestType.Create (some "real-token") sampleFetchError sampleFetchErrorObj
    "Access Denied" [Event.storageFetch "k1"]
    (by decide) (by decide) (by decide) rfl (by decide) (Or.inl rfl) (by decide)
    (by decide) rfl rfl rfl).1 rfl

/-- The number of set-live-tag calls in a trace. -/
def setTagCount : List Event → Nat
  | [] => 0
  | .setTagCall _ _ :: rest => setTagCount rest + 1
  | _ :: rest => setTagCount rest

theorem setTagCount_append (a b : List Event) :
    setTagCount (a ++ b) = setTagCount a + setTagCount b := by
  induction a with
  | nil => simp [setTagCount]
  | cons hd tl ih => cases hd <;> (simp [setTagCount, ih]; try omega)

theorem setTagCount_resolve (o : KeyOracle) (wn : NameField) (found : Option Workflow) :
    setTagCount (resolveWorkflowId o wn found).2 = 0 := by
  rcases found with _ | w
  · rcases h : o.registerWorkflow with e | w <;>
      simp [resolveWorkflowId, h, setTagCount]
  · simp [resolveWorkflowId, setTagCount]

theorem setTagCount_attemptList (wid : String) (l : List Nat) :
    setTagCount (l.map (fun i => Event.registerVersionAttempt wid (i + 1))) = 0 := by
  induction l with
  | nil => rfl
  | cons hd tl ih => simp [setTagCount, ih]

theorem setTagCount_attemptEvents (wid : String) (n : Nat) :
    setTagCount (attemptEvents wid n) = 0 :=
  setTagCount_attemptList wid (List.range n)

/-- The promotion step adds at most one set-tag call to the base trace. -/
theorem promoteStep_setTagCount (o : KeyOracle) (wid : String) (reg : WorkflowVersion)
    (base : List Event) :
    setTagCount (promoteStep o wid reg base).2 ≤ setTagCount base + 1 := by
  rcases hl : o.getLive with e | live
  · by_cases h : isLiveNotFound e = true
    · rcases hst : o.setTag with e2 | u <;>
        simp [promoteStep, hl, h, hst, setTagCount_append, setTagCount]
    · simp only [Bool.not_eq_true] at h
      simp [promoteStep, hl, h, setTagCount_append, setTagCount]
  · by_cases h : (live.versionId == reg.versionId) = true
    · simp [promoteStep, hl, h, setTagCount_append, setTagCount]
    · simp only [Bool.not_eq_true] at h
      rcases hst : o.setTag with e2 | u <;>
        simp [promoteStep, hl, h, hst, setTagCount_append, setTagCount]

/-- Any single reconciliation of a key performs at most one set-tag call. -/
theorem setTagCount_processKey_le_one (o : KeyOracle) (key : String) (cfgA cfgB : Nat) :
    setTagCount (processKey o key cfgA cfgB).2 ≤ 1 := by
  unfold processKey
  rcases hf : o.fetch with e | ⟨raw, po⟩
  · simp [setTagCount]
  · rcases po with e | wn
    · simp [setTagCount]
    · by_cases hn : nameFalsy wn = true
      · simp [hn, setTagCount]
      · simp only [Bool.not_eq_true] at hn
        simp only [hn]
        rcases hl : o.listWorkflows with e | ws
        · simp [setTagCount]
        · rcases hfm : findMatching ws wn with e | found
          · simp [hfm, setTagCount]
          · simp only [hfm]
            rcases hres : resolveWorkflowId o wn found with ⟨er, ev⟩
            have hev0 : setTagCount ev = 0 := by
              have h := setTagCount_resolve o wn found
              rw [hres] at h
              exact h
            rcases er with e | wid
            · simp [setTagCount, setTagCount_append, hev0]
            · rcases hr : (registerWorkflowVersionWithRetry o.registerVersion cfgA cfgB).result
                with e | reg
              · simp [hr, setTagCount, setTagCount_append, hev0, setTagCount_attemptEvents]
              · simp only [hr]
                refine le_trans (promoteStep_setTagCount o wid reg _) ?_
                simp [setTagCount, setTagCount_append, hev0, setTagCount_attemptEvents]

/-- Occurrences of one specific event in a trace. -/
def countEvent (target : Event) : List Event → Nat
  | [] => 0
  | e :: rest => (if e = target then 1 else 0) + countEvent target rest

theorem countEvent_append (target : Event) (a b : List Event) :
    countEvent target (a ++ b) = countEvent target a + countEvent target b := by
  induction a with
  | nil => simp [countEvent]
  | cons hd tl ih => simp [countEvent, ih]; omega

theorem countEvent_setTag_zero (w v : String) (l : List Event)
    (h : setTagCount l = 0) : countEvent (Event.setTagCall w v) l = 0 := by
  induction l with
  | nil => rfl
  | cons hd tl ih =>
    cases hd <;> simp_all [countEvent, setTagCount]

/-- Under successful fetch, parse, list, resolve and register steps, the
processing of a key reduces to the promotion step on the accumulated trace. -/
theorem processKey_success_shape
    (o : KeyOracle) (key raw name : String) (ws : List Workflow) (wid : String)
    (evR : List Event) (registered : WorkflowVersion) (cfgA cfgB : Nat)
    (h1 : o.fetch = Except.ok (raw, ParseOutcome.parsed (NameField.str name)))
    (h2 : name.isEmpty = false)
    (h3 : o.listWorkflows = Except.ok ws)
    (h4 : resolveWorkflowId o (NameField.str name)
        (ws.find? (fun w => jsToUpperCase w.name == jsToUpperCase name))
      = (Except.ok wid, evR))
    (h5 : (registerWorkflowVersionWithRetry o.registerVersion cfgA cfgB).result
        = Except.ok registered) :
    processKey o key cfgA cfgB =
      promoteStep o wid registered
        ([Event.storageFetch key, Event.listWorkflowsCall] ++ evR
          ++ attemptEvents wid
            (registerWorkflowVersionWithRetry o.registerVersion cfgA cfgB).attemptsMade) := by
  unfold processKey
  simp [h1, nameFalsy, h2, h3, findMatching, h4, h5]

/-- Claim C6: after registering a new version, if the currently live version
id equals the newly registered one, the reconciler does not call set-live-tag
for that key and the key completes successfully; otherwise it calls
set-live-tag exactly once, with the newly registered version id.
Consequently a second reconciliation of the same unchanged definition — whose
content-deterministic registration returns the same version id, now live —
performs no set-tag call, so the tag is set at most once across both runs. -/
theorem promotion_skip_iff_live_equals_registered
    (o : KeyOracle) (key raw name : String) (ws : List Workflow) (wid : String)
    (evR : List Event) (registered : WorkflowVersion) (cfgA cfgB : Nat)
    (h1 : o.fetch = Except.ok (raw, ParseOutcome.parsed (NameField.str name)))
    (h2 : name.isEmpty = false)
    (h3 : o.listWorkflows = Except.ok ws)
    (h4 : resolveWorkflowId o (NameField.str name)
        (ws.find? (fun w => jsToUpperCase w.name == jsToUpperCase name))
      = (Except.ok wid, evR))
    (h5 : (registerWorkflowVersionWithRetry o.registerVersion cfgA cfgB).result
        = Except.ok registered) :
    (∀ live, o.getLive = Except.ok live → live.versionId = registered.versionId →
      (processKey o key cfgA cfgB).1 = Except.ok () ∧
      setTagCount (processKey o key cfgA cfgB).2 = 0) ∧
    (∀ live, o.getLive = Except.ok live → live.versionId ≠ registered.versionId →
      countEvent (Event.setTagCall wid registered.versionId)
        (processKey o key cfgA cfgB).2 = 1 ∧
      setTagCount (processKey o key cfgA cfgB).2 = 1) ∧
    setTagCount (processKey o key cfgA cfgB).2 +
      setTagCount (processKey { o with getLive := Except.ok registered } key cfgA cfgB).2
      ≤ 1 := by
  have hres0 : setTagCount evR = 0 := by
    have h := setTagCount_resolve o (NameField.str name)
      (ws.find? (fun w => jsToUpperCase w.name == jsToUpperCase name))
    rw [h4] at h
    exact h
  have hshape := processKey_success_shape o key raw name ws wid evR registered cfgA cfgB
    h1 h2 h3 h4 h5
  refine ⟨?_, ?_, ?_⟩
  · intro live hl heq
    rw [hshape]
    have hps : promoteStep o wid registered
        ([Event.storageFetch key, Event.listWorkflowsCall] ++ evR
          ++ attemptEvents wid
            (registerWorkflowVersionWithRetry o.registerVersion cfgA cfgB).attemptsMade) =
        (Except.ok (),
         ([Event.storageFetch key, Event.listWorkflowsCall] ++ evR
          ++ attemptEvents wid
            (registerWorkflowVersionWithRetry o.registerVersion cfgA cfgB).attemptsMade)
          ++ [Event.getLiveCall wid]) := by
      simp [promoteStep, hl, heq]
    rw [hps]
    refine ⟨rfl, ?_⟩
    simp [setTagCount_append, setTagCount, setTagCount_attemptEvents, hres0]
  · intro live hl hne
    rw [hshape]
    have hne2 : (live.versionId == registered.versionId) = false := by
      simp [hne]
    have htr : (promoteStep o wid registered
        ([Event.storageFetch key, Event.listWorkflowsCall] ++ evR
          ++ attemptEvents wid
            (registerWorkflowVersionWithRetry o.registerVersion cfgA cfgB).attemptsMade)).2 =
        ([Event.storageFetch key, Event.listWorkflowsCall] ++ evR
          ++ attemptEvents wid
            (registerWorkflowVersionWithRetry o.registerVersion cfgA cfgB).attemptsMade)
          ++ [Event.getLiveCall wid, Event.setTagCall wid registered.versionId] := by
      rcases hst : o.setTag with e2 | u <;> simp [promoteStep, hl, hne2, hst]
    rw [htr]
    have hbase0 : setTagCount ([Event.storageFetch key, Event.listWorkflowsCall] ++ evR
        ++ attemptEvents wid
          (registerWorkflowVersionWithRetry o.registerVersion cfgA cfgB).attemptsMade) = 0 := by
      simp [setTagCount_append, setTagCount, setTagCount_attemptEvents, hres0]
    constructor
    · rw [countEvent_append, countEvent_setTag_zero _ _ _ hbase0]
      simp [countEvent]
    · rw [setTagCount_append, hbase0]
      rfl
  · have hrun2 : setTagCount
        (processKey { o with getLive := Except.ok registered } key cfgA cfgB).2 = 0 := by
      have hshape2 := processKey_success_shape { o with getLive := Except.ok registered }
        key raw name ws wid evR registered cfgA cfgB h1 h2 h3 h4 h5
      rw [hshape2]
      have hps2 : (promoteStep { o with getLive := Except.ok registered } wid registered
          ([Event.storageFetch key, Event.listWorkflowsCall] ++ evR
            ++ attemptEvents wid
              (registerWorkflowVersionWithRetry o.registerVersion cfgA cfgB).attemptsMade)).2 =
          ([Event.storageFetch key, Event.listWorkflowsCall] ++ evR
            ++ attemptEvents wid
              (registerWorkflowVersionWithRetry o.registerVersion cfgA cfgB).attemptsMade)
            ++ [Event.getLiveCall wid] := by
        simp [promoteStep]
      rw [hps2]
      simp [setTagCount_append, setTagCount, setTagCount_attemptEvents, hres0]
    have hrun1 := setTagCount_processKey_le_one o key cfgA cfgB
    omega

/-- The witness oracle for a second run over an unchanged definition: the
live version is already the registered one. -/
def sampleLiveOracle : KeyOracle :=
  { sampleOkOracle with getLive := Except.ok ⟨"v1"⟩ }

/-- Witness for C6: on a key whose live version equals the registered one the
run succeeds without a set-tag call, and a first run plus such a second run
set the tag at most once. -/
theorem promotion_skip_iff_live_equals_registered_witness :
    ((processKey sampleLiveOracle "k1" 3 1000).1 = Except.ok () ∧
     setTagCount (processKey sampleLiveOracle "k1" 3 1000).2 = 0) ∧
    setTagCount (processKey sampleOkOracle "k1" 3 1000).2 +
      setTagCount
        (processKey { sampleOkOracle with getLive := Except.ok ⟨"v1"⟩ } "k1" 3 1000).2
      ≤ 1 :=
  ⟨(promotion_skip_iff_live_equals_registered sampleLiveOracle "k1"
      "workflowName wf" "wf" [⟨"id1", "WF"⟩] "id1" [] ⟨"v1"⟩ 3 1000
      rfl (by decide) rfl (by decide) (by decide)).1 ⟨"v1"⟩ rfl rfl,
   (promotion_skip_iff_live_equals_registered sampleOkOracle "k1"
      "workflowName wf" "wf" [⟨"id1", "WF"⟩] "id1" [] ⟨"v1"⟩ 3 1000
      rfl (by decide) rfl (by decide) (by decide)).2.2⟩

/-- The `errorType` property read off a thrown value. -/
def thrownErrorType : Thrown → Option String
  | .primitive _ => none
  | .errObj e => e.errorType

/-- A live-version read error that is NOT a NotFound result (errorType
"ServerError", status 500) but whose message happens to contain the
substring "No version found". -/
def spuriousLiveError : Thrown :=
  .errObj { errorType := some "ServerError", statusCode := some 500,
            message := some "No version found in backend cache", isError := true }

/-- The witness oracle whose live-version read fails with `spuriousLiveError`. -/
def spuriousLiveOracle : KeyOracle :=
  { sampleOkOracle with getLive := Except.error spuriousLiveError }

/-- Counterexample to claim C7 as stated: an error from the live-version read
that is not a NotFound result (its errorType is "ServerError", a server
error) does not propagate and does not abort the batch — because its message
contains "No version found", the code treats it as null, continues to the
promotion step and succeeds. -/
theorem live_read_nonnotfound_swallowed_counterexample :
    thrownErrorType spuriousLiveError ≠ some "NotFoundError" ∧
    (processKey spuriousLiveOracle "k1" 3 1000).1 = Except.ok () ∧
    countEvent (Event.setTagCall "id1" "v1") (processKey spuriousLiveOracle "k1" 3 1000).2
      = 1 := by
  decide

/-- Claim C7, amended: an error from the live-version read is treated as null
(the reconciliation of the key continues to the promotion step) exactly when
the code-side classification `isLiveNotFound` holds — that is, when the
errorType is "NotFoundError" OR the message contains "No version tagged" or
"No version found"; every error not so classified propagates with no set-tag
call.  The final conjunct spells out the classification. -/
theorem live_read_notfound_classification
    (o : KeyOracle) (key raw name : String) (ws : List Workflow) (wid : String)
    (evR : List Event) (registered : WorkflowVersion) (cfgA cfgB : Nat) (e : Thrown)
    (h1 : o.fetch = Except.ok (raw, ParseOutcome.parsed (NameField.str name)))
    (h2 : name.isEmpty = false)
    (h3 : o.listWorkflows = Except.ok ws)
    (h4 : resolveWorkflowId o (NameField.str name)
        (ws.find? (fun w => jsToUpperCase w.name == jsToUpperCase name))
      = (Except.ok wid, evR))
    (h5 : (registerWorkflowVersionWithRetry o.registerVersion cfgA cfgB).result
        = Except.ok registered)
    (hl : o.getLive = Except.error e) :
    (isLiveNotFound e = false →
      (processKey o key cfgA cfgB).1 = Except.error e ∧
      setTagCount (processKey o key cfgA cfgB).2 = 0) ∧
    (isLiveNotFound e = true →
      countEvent (Event.setTagCall wid registered.versionId)
        (processKey o key cfgA cfgB).2 = 1 ∧
      (o.setTag = Except.ok () → (processKey o key cfgA cfgB).1 = Except.ok ())) ∧
    (∀ je, isLiveNotFound (Thrown.errObj je) =
      (je.errorType == some "NotFoundError"
        || (je.message.map (fun m => containsSubstr m "No version tagged"
              || containsSubstr m "No version found")).getD false)) := by
  have hres0 : setTagCount evR = 0 := by
    have h := setTagCount_resolve o (NameField.str name)
      (ws.find? (fun w => jsToUpperCase w.name == jsToUpperCase name))
    rw [h4] at h
    exact h
  have hshape := processKey_success_shape o key raw name ws wid evR registered cfgA cfgB
    h1 h2 h3 h4 h5
  refine ⟨?_, ?_, ?_⟩
  · intro hnf
    rw [hshape]
    have hps : promoteStep o wid registered
        ([Event.storageFetch key, Event.listWorkflowsCall] ++ evR
          ++ attemptEvents wid
            (registerWorkflowVersionWithRetry o.registerVersion cfgA cfgB).attemptsMade) =
        (Except.error e,
         ([Event.storageFetch key, Event.listWorkflowsCall] ++ evR
          ++ attemptEvents wid
            (registerWorkflowVersionWithRetry o.registerVersion cfgA cfgB).attemptsMade)
          ++ [Event.getLiveCall wid]) := by
      simp [promoteStep, hl, hnf]
    rw [hps]
    refine ⟨rfl, ?_⟩
    simp [setTagCount_append, setTagCount, setTagCount_attemptEvents, hres0]
  · intro hnf
    have hbase0 : setTagCount ([Event.storageFetch key, Event.listWorkflowsCall] ++ evR
        ++ attemptEvents wid
          (registerWorkflowVersionWithRetry o.registerVersion cfgA cfgB).attemptsMade) = 0 := by
      simp [setTagCount_append, setTagCount, setTagCount_attemptEvents, hres0]
    constructor
    · rw [hshape]
      have htr : (promoteStep o wid registered
          ([Event.storageFetch key, Event.listWorkflowsCall] ++ evR
            ++ attemptEvents wid
              (registerWorkflowVersionWithRetry o.registerVersion cfgA cfgB).attemptsMade)).2 =
          ([Event.storageFetch key, Event.listWorkflowsCall] ++ evR
            ++ attemptEvents wid
              (registerWorkflowVersionWithRetry o.registerVersion cfgA cfgB).attemptsMade)
            ++ [Event.getLiveCall wid, Event.setTagCall wid registered.versionId] := by
        rcases hst : o.setTag with e2 | u <;> simp [promoteStep, hl, hnf, hst]
      rw [htr, countEvent_append, countEvent_setTag_zero _ _ _ hbase0]
      simp [countEvent]
    · intro hst
      rw [hshape]
      simp [promoteStep, hl, hnf, hst]
  · intro je
    rcases hm : je.message with _ | m <;> simp [isLiveNotFound, hm]

/-- A live-version read failure that the code does not classify as NotFound. -/
def plainServerError : Thrown :=
  .errObj { errorType := some "ServerError", statusCode := some 500,
            message := some "internal error", isError := true }

/-- The witness oracle whose live-version read fails with `plainServerError`. -/
def plainLiveErrorOracle : KeyOracle :=
  { sampleOkOracle with getLive := Except.error plainServerError }

/-- Witness for the amended C7: the NotFound-classified error leads to
promotion; the unclassified server error propagates. -/
theorem live_read_notfound_classification_witness :
    ((processKey plainLiveErrorOracle "k1" 3 1000).1 = Except.error plainServerError ∧
     setTagCount (processKey plainLiveErrorOracle "k1" 3 1000).2 = 0) ∧
    (countEvent (Event.setTagCall "id1" "v1") (processKey sampleOkOracle "k1" 3 1000).2 = 1 ∧
     (sampleOkOracle.setTag = Except.ok () →
       (processKey sampleOkOracle "k1" 3 1000).1 = Except.ok ())) :=
  ⟨(live_read_notfound_classification plainLiveErrorOracle "k1"
      "workflowName wf" "wf" [⟨"id1", "WF"⟩] "id1" [] ⟨"v1"⟩ 3 1000
      plainServerError rfl (by decide) rfl (by decide) (by decide) rfl).1 (by decide),
   (live_read_notfound_classification sampleOkOracle "k1"
      "workflowName wf" "wf" [⟨"id1", "WF"⟩] "id1" [] ⟨"v1"⟩ 3 1000
      sampleNotFoundError rfl (by decide) rfl (by decide) (by decide) rfl).2.1 (by decide)⟩

/-- The witness oracle whose blob parses to an object whose workflowName is a
truthy non-string value (for example the number 42). -/
def truthyNameOracle : KeyOracle :=
  { sampleOkOracle with fetch := .ok ("workflowName 42", .parsed .truthyNonString) }

/-- Counterexample to claim C8 as stated: a blob whose parsed value does not
contain a non-empty workflowName string — here workflowName is the truthy
non-string 42 — passes the falsy check `if (!workflowName)`, so the
listWorkflows registry call IS made for the key before the batch fails with
a TypeError raised by `workflowName.toUpperCase()`. -/
theorem truthy_nonstring_name_registry_call_counterexample :
    processKey truthyNameOracle "bad.json" 3 1000 =
      (Except.error toUpperTypeError,
       [Event.storageFetch "bad.json", Event.listWorkflowsCall]) ∧
    Event.isRegistryCall Event.listWorkflowsCall = true := by
  decide

/-- Claim C8, amended: if the blob's content does not parse as JSON, or the
parsed value's workflowName is absent or falsy (in particular missing or the
empty string), the whole batch fails immediately with that error, no
skip-and-continue, and the key's trace is the storage fetch alone — no
registry call.  (A truthy non-string workflowName is outside this guarantee:
it passes the falsy check and the listWorkflows registry call is made for
the key, as the counterexample shows.) -/
theorem parse_or_missing_name_fails_batch
    (o : KeyOracle) (key raw : String) (rest : List (String × KeyOracle))
    (cfgA cfgB : Nat) :
    (∀ e, o.fetch = Except.ok (raw, ParseOutcome.parseError e) →
      processKey o key cfgA cfgB = (Except.error e, [Event.storageFetch key]) ∧
      deployWorkflows cfgA cfgB ((key, o) :: rest) =
        (Except.error e, [Event.storageFetch key])) ∧
    (∀ wn, o.fetch = Except.ok (raw, ParseOutcome.parsed wn) → nameFalsy wn = true →
      processKey o key cfgA cfgB =
        (Except.error (missingNameError key), [Event.storageFetch key]) ∧
      deployWorkflows cfgA cfgB ((key, o) :: rest) =
        (Except.error (missingNameError key), [Event.storageFetch key])) ∧
    Event.isRegistryCall (Event.storageFetch key) = false := by
  refine ⟨?_, ?_, rfl⟩
  · intro e hf
    have hpk : processKey o key cfgA cfgB = (Except.error e, [Event.storageFetch key]) := by
      unfold processKey
      simp [hf]
    exact ⟨hpk, by simp [deployWorkflows, hpk]⟩
  · intro wn hf hwn
    have hpk : processKey o key cfgA cfgB =
        (Except.error (missingNameError key), [Event.storageFetch key]) := by
      unfold processKey
      simp [hf, hwn]
    exact ⟨hpk, by simp [deployWorkflows, hpk]⟩

/-- A JSON syntax error raised by `JSON.parse`. -/
def jsonSyntaxError : Thrown :=
  .errObj { message := some "Unexpected token o in JSON at position 1", isError := true }

/-- The witness oracle whose blob does not parse. -/
def parseErrorOracle : KeyOracle :=
  { sampleOkOracle with fetch := .ok ("not json", .parseError jsonSyntaxError) }

/-- The witness oracle whose blob parses to an object without workflowName. -/
def missingNameOracle : KeyOracle :=
  { sampleOkOracle with fetch := .ok ("empty object", .parsed .absentOrFalsy) }

/-- Witness for the amended C8 at a concrete parse failure and a concrete
missing-name blob, each followed by another key that is never reached. -/
theorem parse_or_missing_name_fails_batch_witness :
    (processKey parseErrorOracle "k1" 3 1000 =
      (Except.error jsonSyntaxError, [Event.storageFetch "k1"]) ∧
     deployWorkflows 3 1000 [("k1", parseErrorOracle), ("k2", sampleOkOracle)] =
      (Except.error jsonSyntaxError, [Event.storageFetch "k1"])) ∧
    (processKey missingNameOracle "k1" 3 1000 =
      (Except.error (missingNameError "k1"), [Event.storageFetch "k1"]) ∧
     deployWorkflows 3 1000 [("k1", missingNameOracle), ("k2", sampleOkOracle)] =
      (Except.error (missingNameError "k1"), [Event.storageFetch "k1"])) :=
  ⟨(parse_or_missing_name_fails_batch parseErrorOracle "k1" "not json"
      [("k2", sampleOkOracle)] 3 1000).1 jsonSyntaxError rfl,
   (parse_or_missing_name_fails_batch missingNameOracle "k1" "empty object"
      [("k2", sampleOkOracle)] 3 1000).2.1 NameField.absentOrFalsy rfl rfl⟩

/-- The number of create-workflow calls in a trace. -/
def registerWfCount : List Event → Nat
  | [] => 0
  | .registerWorkflowCall _ :: rest => registerWfCount rest + 1
  | _ :: rest => registerWfCount rest

theorem registerWfCount_append (a b : List Event) :
    registerWfCount (a ++ b) = registerWfCount a + registerWfCount b := by
  induction a with
  | nil => simp [registerWfCount]
  | cons hd tl ih => cases hd <;> (simp [registerWfCount, ih]; try omega)

theorem registerWfCount_attemptList (wid : String) (l : List Nat) :
    registerWfCount (l.map (fun i => Event.registerVersionAttempt wid (i + 1))) = 0 := by
  induction l with
  | nil => rfl
  | cons hd tl ih => simp [registerWfCount, ih]

theorem registerWfCount_attemptEvents (wid : String) (n : Nat) :
    registerWfCount (attemptEvents wid n) = 0 :=
  registerWfCount_attemptList wid (List.range n)

/-- The promotion step appends only getLive/setTag events to the base trace. -/
theorem promoteStep_trace_shape (o : KeyOracle) (wid : String) (reg : WorkflowVersion)
    (base : List Event) :
    ∃ tail, (promoteStep o wid reg base).2 = base ++ tail ∧ registerWfCount tail = 0 := by
  rcases hl : o.getLive with e | live
  · by_cases h : isLiveNotFound e = true
    · refine ⟨[Event.getLiveCall wid, Event.setTagCall wid reg.versionId], ?_, rfl⟩
      rcases hst : o.setTag with e2 | u <;> simp [promoteStep, hl, h, hst]
    · simp only [Bool.not_eq_true] at h
      exact ⟨[Event.getLiveCall wid], by simp [promoteStep, hl, h], rfl⟩
  · by_cases h : (live.versionId == reg.versionId) = true
    · exact ⟨[Event.getLiveCall wid], by simp [promoteStep, hl, h], rfl⟩
    · simp only [Bool.not_eq_true] at h
      refine ⟨[Event.getLiveCall wid, Event.setTagCall wid reg.versionId], ?_, rfl⟩
      rcases hst : o.setTag with e2 | u <;> simp [promoteStep, hl, h, hst]

/-- Every run of the retry loop makes at least the attempt it starts at. -/
theorem retryLoop_attempts_ge (oracle : Nat → Except Thrown WorkflowVersion)
    (maxA b : Nat) :
    ∀ fuel attempt delays,
      attempt ≤ (retryLoop oracle maxA b attempt (fuel + 1) delays).attemptsMade := by
  intro fuel
  induction fuel with
  | zero =>
    intro attempt delays
    rcases h : oracle attempt with e | v
    · simp only [retryLoop, h]
      split
      · simp
      · simp [retryLoop]
    · simp [retryLoop, h]
  | succ f ih =>
    intro attempt delays
    rcases h : oracle attempt with e | v
    · simp only [retryLoop, h]
      split
      · simp
      · exact le_trans (Nat.le_succ attempt) (ih (attempt + 1) _)
    · simp [retryLoop, h]

/-- At least one registration attempt is always made. -/
theorem attemptsMade_pos (oracle : Nat → Except Thrown WorkflowVersion)
    (cfgA cfgB : Nat) :
    1 ≤ (registerWorkflowVersionWithRetry oracle cfgA cfgB).attemptsMade := by
  obtain ⟨f, hf⟩ : ∃ f, max 1 cfgA = f + 1 := ⟨max 1 cfgA - 1, by omega⟩
  simp only [registerWorkflowVersionWithRetry, hf]
  exact retryLoop_attempts_ge oracle (f + 1) (max 0 cfgB) f 1 []

theorem firstAttempt_mem_attemptEvents (wid : String) (n : Nat) (h : 1 ≤ n) :
    Event.registerVersionAttempt wid 1 ∈ attemptEvents wid n := by
  unfold attemptEvents
  exact List.mem_map.mpr ⟨0, List.mem_range.mpr (by omega), rfl⟩

/-- Under a successful fetch, parse and list, once the workflow id resolves,
processing reduces to registration-with-retry followed by promotion. -/
theorem processKey_resolved_shape
    (o : KeyOracle) (key raw name : String) (ws : List Workflow) (wid : String)
    (evR : List Event) (cfgA cfgB : Nat)
    (h1 : o.fetch = Except.ok (raw, ParseOutcome.parsed (NameField.str name)))
    (h2 : name.isEmpty = false)
    (h3 : o.listWorkflows = Except.ok ws)
    (h4 : resolveWorkflowId o (NameField.str name)
        (ws.find? (fun u => jsToUpperCase u.name == jsToUpperCase name))
      = (Except.ok wid, evR)) :
    processKey o key cfgA cfgB =
      (match (registerWorkflowVersionWithRetry o.registerVersion cfgA cfgB).result with
       | .error e =>
         (Except.error e,
          [Event.storageFetch key, Event.listWorkflowsCall] ++ evR
            ++ attemptEvents wid
              (registerWorkflowVersionWithRetry o.registerVersion cfgA cfgB).attemptsMade)
       | .ok registered =>
         promoteStep o wid registered
           ([Event.storageFetch key, Event.listWorkflowsCall] ++ evR
             ++ attemptEvents wid
               (registerWorkflowVersionWithRetry o.registerVersion cfgA cfgB).attemptsMade)) := by
  unfold processKey
  rcases hr : (registerWorkflowVersionWithRetry o.registerVersion cfgA cfgB).result
    with e | reg <;>
    simp [h1, nameFalsy, h2, h3, findMatching, h4, hr]

/-- Claim C9: the parsed workflowName is matched case-insensitively against
the names of the existing workflows.  When some existing workflow matches up
to case, its workflowId is used for the version registration and
registerWorkflow is never called; when none matches, registerWorkflow is
called exactly once and its returned id is used. -/
theorem find_or_create_workflow
    (o : KeyOracle) (key raw name : String) (ws : List Workflow) (cfgA cfgB : Nat)
    (h1 : o.fetch = Except.ok (raw, ParseOutcome.parsed (NameField.str name)))
    (h2 : name.isEmpty = false)
    (h3 : o.listWorkflows = Except.ok ws) :
    (∀ w, ws.find? (fun u => jsToUpperCase u.name == jsToUpperCase name) = some w →
      registerWfCount (processKey o key cfgA cfgB).2 = 0 ∧
      Event.registerVersionAttempt w.workflowId 1 ∈ (processKey o key cfgA cfgB).2) ∧
    (∀ w, ws.find? (fun u => jsToUpperCase u.name == jsToUpperCase name) = none →
      o.registerWorkflow = Except.ok w →
      registerWfCount (processKey o key cfgA cfgB).2 = 1 ∧
      Event.registerVersionAttempt w.workflowId 1 ∈ (processKey o key cfgA cfgB).2) := by
  have hmain : ∀ (wid : String) (evR : List Event),
      resolveWorkflowId o (NameField.str name)
        (ws.find? (fun u => jsToUpperCase u.name == jsToUpperCase name))
        = (Except.ok wid, evR) →
      registerWfCount (processKey o key cfgA cfgB).2 = registerWfCount evR ∧
      Event.registerVersionAttempt wid 1 ∈ (processKey o key cfgA cfgB).2 := by
    intro wid evR h4
    have hshape := processKey_resolved_shape o key raw name ws wid evR cfgA cfgB h1 h2 h3 h4
    have hpos := attemptsMade_pos o.registerVersion cfgA cfgB
    have hmem : Event.registerVersionAttempt wid 1 ∈
        ([Event.storageFetch key, Event.listWorkflowsCall] ++ evR
          ++ attemptEvents wid
            (registerWorkflowVersionWithRetry o.registerVersion cfgA cfgB).attemptsMade) := by
      have := firstAttempt_mem_attemptEvents wid
        (registerWorkflowVersionWithRetry o.registerVersion cfgA cfgB).attemptsMade hpos
      exact List.mem_append.mpr (Or.inr this)
    rw [hshape]
    rcases hr : (registerWorkflowVersionWithRetry o.registerVersion cfgA cfgB).result
      with e | reg
    · simp only [hr]
      constructor
      · simp [registerWfCount_append, registerWfCount, registerWfCount_attemptEvents]
      · exact hmem
    · simp only [hr]
      obtain ⟨tail, htail, htail0⟩ := promoteStep_trace_shape o wid reg
        ([Event.storageFetch key, Event.listWorkflowsCall] ++ evR
          ++ attemptEvents wid
            (registerWorkflowVersionWithRetry o.registerVersion cfgA cfgB).attemptsMade)
      rw [htail]
      constructor
      · simp [registerWfCount_append, registerWfCount, registerWfCount_attemptEvents, htail0]
      · exact List.mem_append.mpr (Or.inl hmem)
  constructor
  · intro w hw
    have h4 : resolveWorkflowId o (NameField.str name)
        (ws.find? (fun u => jsToUpperCase u.name == jsToUpperCase name))
        = (Except.ok w.workflowId, []) := by
      rw [hw]
      rfl
    have h := hmain w.workflowId [] h4
    exact ⟨by rw [h.1]; rfl, h.2⟩
  · intro w hw hreg
    have h4 : resolveWorkflowId o (NameField.str name)
        (ws.find? (fun u => jsToUpperCase u.name == jsToUpperCase name))
        = (Except.ok w.workflowId, [Event.registerWorkflowCall (NameField.str name)]) := by
      rw [hw]
      simp [resolveWorkflowId, hreg]
    have h := hmain w.workflowId [Event.registerWorkflowCall (NameField.str name)] h4
    exact ⟨by rw [h.1]; rfl, h.2⟩

/-- The witness oracle for the create path: no existing workflows, creation
returns the fresh id "id9". -/
def sampleCreateOracle : KeyOracle :=
  { sampleOkOracle with
    listWorkflows := Except.ok []
    registerWorkflow := Except.ok ⟨"id9", "wf"⟩ }

/-- Witness for C9: the definition name "wf" matches the existing workflow
"WF" up to case and its id "id1" is used with no create call; with no
existing workflow, exactly one create call is made and the returned id "id9"
is used. -/
theorem find_or_create_workflow_witness :
    (registerWfCount (processKey sampleOkOracle "k1" 3 1000).2 = 0 ∧
     Event.registerVersionAttempt "id1" 1 ∈ (processKey sampleOkOracle "k1" 3 1000).2) ∧
    (registerWfCount (processKey sampleCreateOracle "k1" 3 1000).2 = 1 ∧
     Event.registerVersionAttempt "id9" 1 ∈ (processKey sampleCreateOracle "k1" 3 1000).2) :=
  ⟨(find_or_create_workflow sampleOkOracle "k1" "workflowName wf" "wf"
      [⟨"id1", "WF"⟩] 3 1000 rfl (by decide) rfl).1 ⟨"id1", "WF"⟩ (by decide),
   (find_or_create_workflow sampleCreateOracle "k1" "workflowName wf" "wf"
      [] 3 1000 rfl (by decide) rfl).2 ⟨"id9", "wf"⟩ rfl rfl⟩

end DefDeployer
